import Mathlib

/-!
Shallow embedding of the snake-game simulation engine
(`src/js/script.js`, mirrored by `src/src/modules/GameEngine.js`,
`src/src/modules/GameModes.js`, `src/src/modules/InputHandler.js`).

Randomness (`Math.random()` draws) is modelled by explicit candidate
streams / lists passed to the operations that consume it; DOM and
rendering calls are omitted (they do not touch simulation state).
-/

namespace VaporSnake

/-- Grid-aligned board position, the `{x, y}` objects of the source. -/
structure Pos where
  x : Int
  y : Int
deriving DecidableEq, Repr

/-- The `selectedGameMode` strings `'classic' | 'timetrial' | 'obstacle'`. -/
inductive GameMode where
  | classic
  | timetrial
  | obstacle
deriving DecidableEq, Repr

/-- The `gameState` strings `'menu' | 'playing' | 'paused' | 'gameOver'`. -/
inductive GState where
  | menu
  | playing
  | paused
  | gameOver
deriving DecidableEq, Repr

/-- The keyboard intents the engine distinguishes in `handleKeyPress`
(arrow keys / WASD resolve to the four cardinals, Space / Escape to
`pause`, anything else is inert). -/
inductive Key where
  | left
  | up
  | right
  | down
  | pause
  | other
deriving DecidableEq, Repr

/-- Simulation-relevant fields of the `VaporSnake` / `GameEngine` object.
`timerActive` models `timeInterval !== null` (a live `setInterval`
countdown). -/
structure GameState where
  gameState : GState
  snake : List Pos
  food : Pos
  score : Nat
  level : Nat
  selectedLevel : Nat
  selectedGameMode : GameMode
  dx : Int
  dy : Int
  changingDirection : Bool
  gameRunning : Bool
  isPaused : Bool
  timeRemaining : Int
  timerActive : Bool
  pointsEarned : Nat
  obstacles : List Pos
  canvasSize : Int
  gridSize : Int
deriving Repr

/-- Border wrap of one coordinate, from `moveSnake`:
`if (c < 0) c = canvasSize - gridSize; if (c >= canvasSize) c = 0;`. -/
def wrapCoord (canvasSize gridSize c : Int) : Int :=
  if c < 0 then canvasSize - gridSize
  else if canvasSize ≤ c then 0
  else c

/-- Border wrap of a position on both axes. -/
def wrapPos (canvasSize gridSize : Int) (p : Pos) : Pos :=
  ⟨wrapCoord canvasSize gridSize p.x, wrapCoord canvasSize gridSize p.y⟩

/-- `endGame()`: stops the loop, enters `gameOver`, clears the
time-trial countdown (`clearTimer()`).  Score-persistence and DOM
effects are outside the simulation state. -/
def endGame (s : GameState) : GameState :=
  { s with gameRunning := false, gameState := GState.gameOver, timerActive := false }

/-- `moveSnake()`: build the wrapped next head, `unshift` it, and `pop`
the tail unless the head landed on the food. -/
def moveSnake (s : GameState) : GameState :=
  match s.snake with
  | [] => s
  | h0 :: rest =>
    let head := wrapPos s.canvasSize s.gridSize ⟨h0.x + s.dx, h0.y + s.dy⟩
    let grown := head :: h0 :: rest
    if head = s.food then { s with snake := grown }
    else { s with snake := grown.dropLast }

/-- `checkCollisions()`: the (post-move) head against body segments at
index ≥ 1, then against obstacles in obstacle mode; a hit ends the game. -/
def checkCollisions (s : GameState) : GameState :=
  match s.snake with
  | [] => s
  | h :: t =>
    if h ∈ t then endGame s
    else if s.selectedGameMode = GameMode.obstacle ∧ h ∈ s.obstacles then endGame s
    else s

/-- Rejection sampling of `spawnFood()`: draw candidates in order and
keep the first that conflicts with neither the snake nor (obstacle mode)
an obstacle.  The source's unbounded `do … while` re-draw loop is
modelled by the explicit candidate list; `none` corresponds to the loop
never terminating. -/
def spawnFoodFrom (cands snake obstacles : List Pos) (mode : GameMode) : Option Pos :=
  match cands with
  | [] => none
  | c :: rest =>
    if c ∈ snake ∨ (mode = GameMode.obstacle ∧ c ∈ obstacles) then
      spawnFoodFrom rest snake obstacles mode
    else some c

/-- `checkFood()` (script.js variant): on eating, add 10 to `score` and
`pointsEarned`, apply the time-trial bonuses (+5 s per food, +20 s when
cumulative `pointsEarned` is a multiple of 50), respawn the food, and
raise `level` to `min(selectedLevel + floor(score / 50), 10)` when that
exceeds the current level. -/
def checkFood (cands : List Pos) (s : GameState) : GameState :=
  match s.snake with
  | [] => s
  | h :: _ =>
    if h = s.food then
      let score2 := s.score + 10
      let points2 := s.pointsEarned + 10
      let time2 : Int :=
        if s.selectedGameMode = GameMode.timetrial then
          (if points2 % 50 = 0 then s.timeRemaining + 5 + 20 else s.timeRemaining + 5)
        else s.timeRemaining
      let food2 := (spawnFoodFrom cands s.snake s.obstacles s.selectedGameMode).getD s.food
      let newLevel : Nat := min (s.selectedLevel + score2 / 50) 10
      let level2 := if s.level < newLevel then newLevel else s.level
      { s with score := score2, pointsEarned := points2, timeRemaining := time2,
               food := food2, level := level2 }
    else s

/-- One firing of the `gameLoop` `setTimeout` callback: clear the
direction latch, move, resolve collisions, resolve food.  Drawing calls
do not change simulation state. -/
def tick (cands : List Pos) (s : GameState) : GameState :=
  checkFood cands (checkCollisions (moveSnake { s with changingDirection := false }))

/-- Guard of `gameLoop()`: `if (!this.gameRunning || this.isPaused) return;`
— whether the loop re-schedules its next movement step. -/
def gameLoopSchedules (s : GameState) : Bool :=
  s.gameRunning && !s.isPaused

/-- `pauseGame()`: while playing, raise `isPaused` only.  It touches
neither `timeInterval` nor `timeRemaining`. -/
def pauseGame (s : GameState) : GameState :=
  if s.gameState = GState.playing then { s with isPaused := true } else s

/-- One firing of the 1-second `setInterval` countdown of
`startTimer()`: decrement `timeRemaining` and end the game when it
reaches 0.  Inert when no interval is live. -/
def timerTick (s : GameState) : GameState :=
  if s.timerActive then
    if s.timeRemaining - 1 ≤ 0 then endGame { s with timeRemaining := s.timeRemaining - 1 }
    else { s with timeRemaining := s.timeRemaining - 1 }
  else s

/-- `handleKeyPress(event)`: ignore input unless playing and the
once-per-tick latch is clear; set the latch, then apply the single
branch matching the key (left/right require `dx === 0`, up/down require
`dy === 0`), and finally pause on Space/Escape. -/
def handleKeyPress (s : GameState) (k : Key) : GameState :=
  if s.gameState ≠ GState.playing ∨ s.changingDirection then s
  else
    let s1 := { s with changingDirection := true }
    let s2 :=
      match k with
      | Key.left => if s1.dx = 0 then { s1 with dx := -s1.gridSize, dy := 0 } else s1
      | Key.up => if s1.dy = 0 then { s1 with dx := 0, dy := -s1.gridSize } else s1
      | Key.right => if s1.dx = 0 then { s1 with dx := s1.gridSize, dy := 0 } else s1
      | Key.down => if s1.dy = 0 then { s1 with dx := 0, dy := s1.gridSize } else s1
      | _ => s1
    if k = Key.pause then pauseGame s2 else s2

/-- A sequence of key events arriving between two movement ticks. -/
def processKeys (s : GameState) (ks : List Key) : GameState :=
  ks.foldl handleKeyPress s

/-- `GameModes.addTimeBonus(points)` of the modular engine: +5 seconds
per food, and +20 seconds with a bonus notification when `points % 50
=== 0`.  Returns the new `timeRemaining` and whether the notification
fired. -/
def addTimeBonus (mode : GameMode) (points : Nat) (timeRemaining : Int) : Int × Bool :=
  if mode ≠ GameMode.timetrial then (timeRemaining, false)
  else
    let t1 : Int := timeRemaining + 5
    if points % 50 = 0 then (t1 + 20, true) else (t1, false)

/-- Exclusion zone of `generateObstacles`:
`Math.abs(x - 100) < gridSize * 3 && Math.abs(y - 100) < gridSize * 2`. -/
def tooCloseToStart (gridSize : Int) (p : Pos) : Prop :=
  |p.x - 100| < gridSize * 3 ∧ |p.y - 100| < gridSize * 2

instance (gridSize : Int) (p : Pos) : Decidable (tooCloseToStart gridSize p) := by
  unfold tooCloseToStart
  infer_instance

/-- Inner `while (!validPosition && attempts < 50)` loop of
`generateObstacles`: draw candidates from the stream, accept the first
that conflicts with neither snake, nor placed obstacles, nor the
spawn-area exclusion zone; give up after the attempt budget.  Returns
the accepted cell (if any) and the next unused stream index. -/
def placeOne (cand : Nat → Pos) (snake obs : List Pos) (gridSize : Int) :
    Nat → Nat → Option Pos × Nat
  | 0, idx => (none, idx)
  | Nat.succ attempts, idx =>
    if cand idx ∉ snake ∧ cand idx ∉ obs ∧ ¬ tooCloseToStart gridSize (cand idx) then
      (some (cand idx), idx + 1)
    else placeOne cand snake obs gridSize attempts (idx + 1)

/-- Outer `for (let i = 0; i < numObstacles; i++)` loop of
`generateObstacles`: each iteration runs the 50-attempt inner loop and
pushes the accepted cell, or skips the obstacle on exhaustion. -/
def genObstaclesAux (cand : Nat → Pos) (snake : List Pos) (gridSize : Int) :
    Nat → List Pos → Nat → List Pos × Nat
  | 0, obs, idx => (obs, idx)
  | Nat.succ n, obs, idx =>
    match placeOne cand snake obs gridSize 50 idx with
    | (some c, idx2) => genObstaclesAux cand snake gridSize n (obs ++ [c]) idx2
    | (none, idx2) => genObstaclesAux cand snake gridSize n obs idx2

/-- Target obstacle count `Math.floor(Math.random() * 8) + 5`, with the
raw draw modelled as an arbitrary natural reduced mod 8. -/
def numObstaclesOf (r : Nat) : Nat := r % 8 + 5

/-- `generateObstacles()` over an explicit candidate stream. -/
def generateObstacles (countRand : Nat) (cand : Nat → Pos) (snake : List Pos)
    (gridSize : Int) : List Pos :=
  (genObstaclesAux cand snake gridSize (numObstaclesOf countRand) [] 0).1

/-- `startGame()`: reset score/heading/flags, run mode initialization
(time-trial countdown, obstacle placement), spawn the snake at its fixed
footprint and the first food. -/
def startGame (countRand : Nat) (obsCand : Nat → Pos) (foodCands : List Pos)
    (s : GameState) : GameState :=
  let s1 := { s with
    level := s.selectedLevel,
    gameState := GState.playing,
    score := 0,
    dx := s.gridSize, dy := 0,
    gameRunning := true, isPaused := false, changingDirection := false,
    pointsEarned := 0 }
  let s2 :=
    if s1.selectedGameMode = GameMode.timetrial then
      { s1 with timeRemaining := 30, timerActive := true }
    else { s1 with timerActive := false }
  let s3 := { s2 with snake := [⟨100, 100⟩, ⟨80, 100⟩, ⟨60, 100⟩], obstacles := [] }
  let s4 :=
    if s3.selectedGameMode = GameMode.obstacle then
      { s3 with obstacles := generateObstacles countRand obsCand s3.snake s3.gridSize }
    else s3
  { s4 with food := (spawnFoodFrom foodCands s4.snake s4.obstacles s4.selectedGameMode).getD s4.food }

/-- Modelled from the spec's words for the CollisionDetector contract
(§4.3): `hitsSelf(head, snakeBody)` is true when `head` equals a segment
at index ≥ 1 of the pre-move body, the old tail cell included.  Stated
for comparison with `checkCollisions`, which runs on the post-move body. -/
def hitsSelfSpec (head : Pos) (preMoveBody : List Pos) : Prop :=
  head ∈ preMoveBody.drop 1

instance (head : Pos) (preMoveBody : List Pos) : Decidable (hitsSelfSpec head preMoveBody) := by
  unfold hitsSelfSpec
  infer_instance

/-- Concrete session state used by several witnesses: the spec's §8
scenario (selectedLevel 1, classic mode, freshly spawned snake moving
right, food away from the head's path). -/
def exC1 : GameState :=
  { gameState := GState.playing, snake := [⟨100, 100⟩, ⟨80, 100⟩, ⟨60, 100⟩],
    food := ⟨300, 300⟩, score := 0, level := 1, selectedLevel := 1,
    selectedGameMode := GameMode.classic, dx := 20, dy := 0,
    changingDirection := false, gameRunning := true, isPaused := false,
    timeRemaining := 0, timerActive := false, pointsEarned := 0,
    obstacles := [], canvasSize := 600, gridSize := 20 }

/-- Concrete playing state whose snake forms a hook so that the next
head move lands exactly on the old tail cell `(100,120)`. -/
def exC2 : GameState :=
  { gameState := GState.playing,
    snake := [⟨100, 100⟩, ⟨120, 100⟩, ⟨120, 120⟩, ⟨100, 120⟩],
    food := ⟨300, 300⟩, score := 0, level := 1, selectedLevel := 1,
    selectedGameMode := GameMode.classic, dx := 0, dy := 20,
    changingDirection := false, gameRunning := true, isPaused := false,
    timeRemaining := 0, timerActive := false, pointsEarned := 0,
    obstacles := [], canvasSize := 600, gridSize := 20 }

/-- Concrete time-trial state one tick before its fifth food: the head
is about to land on the food and `pointsEarned` is 40, so this tick
brings the cumulative points of the session to 50. -/
def exC3 : GameState :=
  { gameState := GState.playing, snake := [⟨100, 100⟩, ⟨80, 100⟩, ⟨60, 100⟩],
    food := ⟨120, 100⟩, score := 40, level := 1, selectedLevel := 1,
    selectedGameMode := GameMode.timetrial, dx := 20, dy := 0,
    changingDirection := false, gameRunning := true, isPaused := false,
    timeRemaining := 12, timerActive := true, pointsEarned := 40,
    obstacles := [], canvasSize := 600, gridSize := 20 }

/-- Concrete time-trial state with three seconds on the clock, used to
watch the countdown run across a pause. -/
def exC8 : GameState :=
  { gameState := GState.playing, snake := [⟨100, 100⟩, ⟨80, 100⟩, ⟨60, 100⟩],
    food := ⟨300, 300⟩, score := 0, level := 1, selectedLevel := 1,
    selectedGameMode := GameMode.timetrial, dx := 20, dy := 0,
    changingDirection := false, gameRunning := true, isPaused := false,
    timeRemaining := 3, timerActive := true, pointsEarned := 0,
    obstacles := [], canvasSize := 600, gridSize := 20 }

/-! Helper lemmas shared by the claim theorems. -/

theorem endGame_only_flags (s : GameState) :
    (endGame s).snake = s.snake ∧ (endGame s).food = s.food ∧
    (endGame s).score = s.score ∧ (endGame s).pointsEarned = s.pointsEarned ∧
    (endGame s).obstacles = s.obstacles ∧
    (endGame s).selectedGameMode = s.selectedGameMode ∧
    (endGame s).selectedLevel = s.selectedLevel ∧
    (endGame s).level = s.level ∧
    (endGame s).timeRemaining = s.timeRemaining := by
  simp [endGame]

theorem moveSnake_eq (s : GameState) (h0 : Pos) (rest : List Pos)
    (hsnake : s.snake = h0 :: rest) (nh : Pos)
    (hnh : nh = wrapPos s.canvasSize s.gridSize ⟨h0.x + s.dx, h0.y + s.dy⟩) :
    moveSnake { s with changingDirection := false } =
      if nh = s.food then { s with changingDirection := false, snake := nh :: h0 :: rest }
      else { s with changingDirection := false, snake := (nh :: h0 :: rest).dropLast } := by
  unfold moveSnake
  simp only [hsnake, ← hnh]

theorem tick_nil (cands : List Pos) (s : GameState) (h : s.snake = []) :
    tick cands s = { s with changingDirection := false } := by
  have hm : moveSnake { s with changingDirection := false } =
      { s with changingDirection := false } := by
    unfold moveSnake
    simp only [h]
  have hc : checkCollisions { s with changingDirection := false } =
      { s with changingDirection := false } := by
    unfold checkCollisions
    simp only [h]
  have hf : checkFood cands { s with changingDirection := false } =
      { s with changingDirection := false } := by
    unfold checkFood
    simp only [h]
  show checkFood cands (checkCollisions (moveSnake { s with changingDirection := false })) = _
  rw [hm, hc, hf]

theorem checkCollisions_cases (s : GameState) :
    checkCollisions s = s ∨ checkCollisions s = endGame s := by
  unfold checkCollisions
  rcases hsn : s.snake with _ | ⟨h, t⟩
  · exact Or.inl rfl
  · by_cases h1 : h ∈ t
    · simp [h1]
    · by_cases h2 : s.selectedGameMode = GameMode.obstacle ∧ h ∈ s.obstacles
      · simp [h1, h2]
      · simp [h1, h2]

theorem checkFood_noeat (cands : List Pos) (s : GameState) (h : Pos) (t : List Pos)
    (hsn : s.snake = h :: t) (hne : h ≠ s.food) : checkFood cands s = s := by
  unfold checkFood
  rw [hsn]
  simp [hne]

theorem checkFood_eat_fields (cands : List Pos) (s : GameState) (h : Pos) (t : List Pos)
    (hsn : s.snake = h :: t) (heq : h = s.food) :
    (checkFood cands s).snake = s.snake ∧
    (checkFood cands s).score = s.score + 10 ∧
    (checkFood cands s).pointsEarned = s.pointsEarned + 10 ∧
    (checkFood cands s).food =
      (spawnFoodFrom cands s.snake s.obstacles s.selectedGameMode).getD s.food ∧
    (checkFood cands s).level =
      (if s.level < min (s.selectedLevel + (s.score + 10) / 50) 10
       then min (s.selectedLevel + (s.score + 10) / 50) 10 else s.level) ∧
    (checkFood cands s).selectedLevel = s.selectedLevel ∧
    (checkFood cands s).gameState = s.gameState ∧
    (checkFood cands s).obstacles = s.obstacles ∧
    (checkFood cands s).selectedGameMode = s.selectedGameMode ∧
    (checkFood cands s).timeRemaining =
      (if s.selectedGameMode = GameMode.timetrial then
        (if (s.pointsEarned + 10) % 50 = 0 then s.timeRemaining + 5 + 20
         else s.timeRemaining + 5)
       else s.timeRemaining) := by
  unfold checkFood
  rw [hsn]
  dsimp only
  rw [if_pos heq]
  exact ⟨rfl, rfl, rfl, rfl, rfl, rfl, rfl, rfl, rfl, rfl⟩

theorem tick_eat_fields (cands : List Pos) (s : GameState) (h0 : Pos) (rest : List Pos)
    (hsnake : s.snake = h0 :: rest)
    (heq : wrapPos s.canvasSize s.gridSize ⟨h0.x + s.dx, h0.y + s.dy⟩ = s.food) :
    (tick cands s).score = s.score + 10 ∧
    (tick cands s).pointsEarned = s.pointsEarned + 10 ∧
    (tick cands s).selectedLevel = s.selectedLevel ∧
    (tick cands s).selectedGameMode = s.selectedGameMode ∧
    (tick cands s).level =
      (if s.level < min (s.selectedLevel + (s.score + 10) / 50) 10
       then min (s.selectedLevel + (s.score + 10) / 50) 10 else s.level) ∧
    (tick cands s).timeRemaining =
      (if s.selectedGameMode = GameMode.timetrial then
        (if (s.pointsEarned + 10) % 50 = 0 then s.timeRemaining + 5 + 20
         else s.timeRemaining + 5)
       else s.timeRemaining) ∧
    (tick cands s).snake.length = s.snake.length + 1 := by
  have hmove := moveSnake_eq s h0 rest hsnake _ rfl
  have htick : tick cands s = checkFood cands (checkCollisions (moveSnake
      { s with changingDirection := false })) := rfl
  rw [htick, hmove, if_pos heq]
  rcases checkCollisions_cases { s with changingDirection := false, snake := wrapPos s.canvasSize s.gridSize ⟨h0.x + s.dx, h0.y + s.dy⟩ :: h0 :: rest } with hc | hc <;> rw [hc]
  · obtain ⟨e1, e2, e3, -, e5, e6, -, -, e9, e10⟩ := checkFood_eat_fields cands
      { s with changingDirection := false, snake := wrapPos s.canvasSize s.gridSize ⟨h0.x + s.dx, h0.y + s.dy⟩ :: h0 :: rest }
      _ (h0 :: rest) rfl heq
    refine ⟨e2, e3, e6, e9, e5, e10, ?_⟩
    rw [e1]
    all_goals simp [hsnake]
  · obtain ⟨e1, e2, e3, -, e5, e6, -, -, e9, e10⟩ := checkFood_eat_fields cands
      (endGame { s with changingDirection := false, snake := wrapPos s.canvasSize s.gridSize ⟨h0.x + s.dx, h0.y + s.dy⟩ :: h0 :: rest })
      _ (h0 :: rest) rfl heq
    refine ⟨e2, e3, e6, e9, e5, e10, ?_⟩
    rw [e1]
    all_goals simp [hsnake, endGame]

theorem tick_noeat_fields (cands : List Pos) (s : GameState) (h0 : Pos) (rest : List Pos)
    (hsnake : s.snake = h0 :: rest)
    (hne : wrapPos s.canvasSize s.gridSize ⟨h0.x + s.dx, h0.y + s.dy⟩ ≠ s.food) :
    (tick cands s).score = s.score ∧
    (tick cands s).pointsEarned = s.pointsEarned ∧
    (tick cands s).selectedLevel = s.selectedLevel ∧
    (tick cands s).selectedGameMode = s.selectedGameMode ∧
    (tick cands s).level = s.level ∧
    (tick cands s).timeRemaining = s.timeRemaining ∧
    (tick cands s).snake.length = s.snake.length ∧
    (tick cands s).food = s.food := by
  have hmove := moveSnake_eq s h0 rest hsnake _ rfl
  have htick : tick cands s = checkFood cands (checkCollisions (moveSnake
      { s with changingDirection := false })) := rfl
  have hdl : (wrapPos s.canvasSize s.gridSize ⟨h0.x + s.dx, h0.y + s.dy⟩
      :: h0 :: rest).dropLast =
      wrapPos s.canvasSize s.gridSize ⟨h0.x + s.dx, h0.y + s.dy⟩
      :: (h0 :: rest).dropLast := rfl
  rw [htick, hmove, if_neg hne]
  rcases checkCollisions_cases { s with changingDirection := false, snake := (wrapPos s.canvasSize s.gridSize ⟨h0.x + s.dx, h0.y + s.dy⟩ :: h0 :: rest).dropLast } with hc | hc <;> rw [hc]
  · rw [checkFood_noeat cands { s with changingDirection := false, snake := (wrapPos s.canvasSize s.gridSize ⟨h0.x + s.dx, h0.y + s.dy⟩ :: h0 :: rest).dropLast } _ ((h0 :: rest).dropLast) hdl hne]
    refine ⟨rfl, rfl, rfl, rfl, rfl, rfl, ?_, rfl⟩
    simp [hsnake]
  · rw [checkFood_noeat cands (endGame { s with changingDirection := false, snake := (wrapPos s.canvasSize s.gridSize ⟨h0.x + s.dx, h0.y + s.dy⟩ :: h0 :: rest).dropLast }) _ ((h0 :: rest).dropLast) hdl hne]
    refine ⟨rfl, rfl, rfl, rfl, rfl, rfl, ?_, rfl⟩
    simp [hsnake, endGame]

theorem startGame_fields (cr : Nat) (oc : Nat → Pos) (fc : List Pos) (s : GameState) :
    (startGame cr oc fc s).snake = [⟨100, 100⟩, ⟨80, 100⟩, ⟨60, 100⟩] ∧
    (startGame cr oc fc s).score = 0 ∧
    (startGame cr oc fc s).pointsEarned = 0 ∧
    (startGame cr oc fc s).level = s.selectedLevel ∧
    (startGame cr oc fc s).selectedLevel = s.selectedLevel ∧
    (startGame cr oc fc s).dx = s.gridSize ∧
    (startGame cr oc fc s).dy = 0 ∧
    (startGame cr oc fc s).gameState = GState.playing ∧
    (startGame cr oc fc s).changingDirection = false := by
  unfold startGame
  dsimp only
  split_ifs <;> exact ⟨rfl, rfl, rfl, rfl, rfl, rfl, rfl, rfl, rfl⟩

/-- C1: per tick, landing the wrapped next head on the food keeps the
tail (length +1), awards 10 points and requests a fresh food from the
rejection sampler; otherwise the tail is popped, length, score and food
unchanged.  Instantiated on the spec's concrete scenario by the witness. -/
theorem c1_tick_eat_grows_else_tail_pops (cands : List Pos) (s : GameState)
    (h0 : Pos) (rest : List Pos) (hsnake : s.snake = h0 :: rest) (nh : Pos)
    (hnh : nh = wrapPos s.canvasSize s.gridSize ⟨h0.x + s.dx, h0.y + s.dy⟩) :
    (nh = s.food →
      (tick cands s).snake = nh :: h0 :: rest ∧
      (tick cands s).snake.length = s.snake.length + 1 ∧
      (tick cands s).score = s.score + 10 ∧
      (tick cands s).food =
        (spawnFoodFrom cands (nh :: h0 :: rest) s.obstacles s.selectedGameMode).getD s.food) ∧
    (nh ≠ s.food →
      (tick cands s).snake = nh :: (h0 :: rest).dropLast ∧
      (tick cands s).snake.length = s.snake.length ∧
      (tick cands s).score = s.score ∧
      (tick cands s).food = s.food) := by
  have hmove := moveSnake_eq s h0 rest hsnake nh hnh
  have htick : tick cands s = checkFood cands (checkCollisions (moveSnake
      { s with changingDirection := false })) := rfl
  constructor
  · intro heq
    rw [htick, hmove, if_pos heq]
    rcases checkCollisions_cases
        { s with changingDirection := false, snake := nh :: h0 :: rest } with hc | hc <;>
      rw [hc]
    · obtain ⟨e1, e2, -, e4, -⟩ := checkFood_eat_fields cands
        { s with changingDirection := false, snake := nh :: h0 :: rest }
        nh (h0 :: rest) rfl heq
      refine ⟨e1, ?_, e2, e4⟩
      rw [e1]
      all_goals simp [hsnake, endGame]
    · obtain ⟨e1, e2, -, e4, -⟩ := checkFood_eat_fields cands
        (endGame { s with changingDirection := false, snake := nh :: h0 :: rest })
        nh (h0 :: rest) rfl heq
      refine ⟨e1, ?_, e2, e4⟩
      rw [e1]
      all_goals simp [hsnake, endGame]
  · intro hne
    rw [htick, hmove, if_neg hne]
    have hdl : (nh :: h0 :: rest).dropLast = nh :: (h0 :: rest).dropLast := rfl
    rcases checkCollisions_cases
        { s with changingDirection := false, snake := (nh :: h0 :: rest).dropLast }
        with hc | hc <;> rw [hc]
    · rw [checkFood_noeat cands
        { s with changingDirection := false, snake := (nh :: h0 :: rest).dropLast }
        nh ((h0 :: rest).dropLast) hdl hne]
      refine ⟨rfl, ?_, rfl, rfl⟩
      simp [hsnake]
    · rw [checkFood_noeat cands
        (endGame { s with changingDirection := false, snake := (nh :: h0 :: rest).dropLast })
        nh ((h0 :: rest).dropLast) hdl hne]
      refine ⟨rfl, ?_, rfl, rfl⟩
      simp [hsnake, endGame]

/-- C1 witness: the spec's concrete scenario — snake
`[(100,100),(80,100),(60,100)]` moving right, no food at `(120,100)` —
yields `[(120,100),(100,100),(80,100)]` with unchanged score. -/
theorem c1_tick_eat_grows_else_tail_pops_witness :
    (tick [] exC1).snake = [(⟨120, 100⟩ : Pos), ⟨100, 100⟩, ⟨80, 100⟩] ∧
    (tick [] exC1).score = 0 := by
  have h := c1_tick_eat_grows_else_tail_pops [] exC1 ⟨100, 100⟩
    [⟨80, 100⟩, ⟨60, 100⟩] rfl ⟨120, 100⟩ (by decide)
  have h2 := h.2 (by decide)
  exact ⟨by rw [h2.1]; rfl, h2.2.2.1⟩

/-- C9: `startGame` establishes `score = 10 * (snakeLength - 3)` (score
0, length 3), and every tick preserves it, since the tail is kept
exactly on the ticks that award 10 points.  Stated as
`10 * length = score + 30` to avoid natural-number truncation. -/
theorem c9_score_tracks_snake_growth (cands fc : List Pos) (cr : Nat) (oc : Nat → Pos)
    (s u : GameState) (hinv : 10 * u.snake.length = u.score + 30) :
    10 * (startGame cr oc fc s).snake.length = (startGame cr oc fc s).score + 30 ∧
    10 * (tick cands u).snake.length = (tick cands u).score + 30 := by
  constructor
  · obtain ⟨h1, h2, -⟩ := startGame_fields cr oc fc s
    rw [h1, h2]
    rfl
  · rcases hu : u.snake with _ | ⟨h0, rest⟩
    · rw [tick_nil cands u hu]
      exact hinv
    · by_cases he : wrapPos u.canvasSize u.gridSize ⟨h0.x + u.dx, h0.y + u.dy⟩ = u.food
      · obtain ⟨e1, -, -, -, -, -, e7⟩ := tick_eat_fields cands u h0 rest hu he
        rw [e1, e7]
        omega
      · obtain ⟨e1, -, -, -, -, -, e7, -⟩ := tick_noeat_fields cands u h0 rest hu he
        rw [e1, e7]
        omega

/-- C9 witness: the invariant holds after one tick from the fresh
classic session and after `startGame` itself. -/
theorem c9_score_tracks_snake_growth_witness :
    10 * (tick [] exC1).snake.length = (tick [] exC1).score + 30 ∧
    10 * (startGame 0 (fun _ => ⟨0, 0⟩) [] exC1).snake.length =
      (startGame 0 (fun _ => ⟨0, 0⟩) [] exC1).score + 30 := by
  have h := c9_score_tracks_snake_growth [] [] 0 (fun _ => ⟨0, 0⟩) exC1 exC1 (by decide)
  exact ⟨h.2, h.1⟩

/-- C5: `startGame` establishes `level = min(selectedLevel + score/50, 10)`
(given the configured level is at most 10), every tick preserves the
equation, and `level` never decreases across a tick. -/
theorem c5_level_equals_min_formula (cands fc : List Pos) (cr : Nat) (oc : Nat → Pos)
    (s u : GameState) (hsel : s.selectedLevel ≤ 10)
    (hlev : u.level = min (u.selectedLevel + u.score / 50) 10) :
    (startGame cr oc fc s).level =
      min ((startGame cr oc fc s).selectedLevel + (startGame cr oc fc s).score / 50) 10 ∧
    (tick cands u).level =
      min ((tick cands u).selectedLevel + (tick cands u).score / 50) 10 ∧
    u.level ≤ (tick cands u).level := by
  refine ⟨?_, ?_, ?_⟩
  · obtain ⟨-, h2, -, h4, h5, -⟩ := startGame_fields cr oc fc s
    rw [h2, h4, h5]
    simp [Nat.min_eq_left hsel]
  · rcases hu : u.snake with _ | ⟨h0, rest⟩
    · rw [tick_nil cands u hu]
      exact hlev
    · by_cases he : wrapPos u.canvasSize u.gridSize ⟨h0.x + u.dx, h0.y + u.dy⟩ = u.food
      · obtain ⟨e1, -, e3, -, e5, -, -⟩ := tick_eat_fields cands u h0 rest hu he
        rw [e1, e3, e5]
        split_ifs with h
        · rfl
        · have hmono : min (u.selectedLevel + u.score / 50) 10 ≤
              min (u.selectedLevel + (u.score + 10) / 50) 10 :=
            min_le_min (Nat.add_le_add_left
              (Nat.div_le_div_right (Nat.le_add_right _ _)) _) le_rfl
          exact le_antisymm (by rw [hlev]; exact hmono) (Nat.le_of_not_lt h)
      · obtain ⟨e1, -, e3, -, e5, -, -, -⟩ := tick_noeat_fields cands u h0 rest hu he
        rw [e1, e3, e5]
        exact hlev
  · rcases hu : u.snake with _ | ⟨h0, rest⟩
    · rw [tick_nil cands u hu]
    · by_cases he : wrapPos u.canvasSize u.gridSize ⟨h0.x + u.dx, h0.y + u.dy⟩ = u.food
      · obtain ⟨-, -, -, -, e5, -, -⟩ := tick_eat_fields cands u h0 rest hu he
        rw [e5]
        split_ifs with h
        · exact Nat.le_of_lt h
        · exact le_rfl
      · obtain ⟨-, -, -, -, e5, -, -, -⟩ := tick_noeat_fields cands u h0 rest hu he
        rw [e5]

/-- C5 witness: the formula and monotonicity, one tick into the fresh
classic session of the spec's §8 scenario. -/
theorem c5_level_equals_min_formula_witness :
    (tick [] exC1).level =
      min ((tick [] exC1).selectedLevel + (tick [] exC1).score / 50) 10 ∧
    exC1.level ≤ (tick [] exC1).level := by
  have h := c5_level_equals_min_formula [] [] 0 (fun _ => ⟨0, 0⟩) exC1 exC1
    (by decide) (by decide)
  exact ⟨h.2.1, h.2.2⟩

/-- C4: whenever the candidate stream offers at least one cell free of
the snake and (in obstacle mode) of the obstacles, the rejection
sampler of `spawnFood` terminates with a food position disjoint from
every snake segment and, in obstacle mode, from every obstacle cell. -/
theorem c4_spawned_food_avoids_occupied (cands snake obstacles : List Pos)
    (mode : GameMode)
    (hfree : ∃ c ∈ cands, c ∉ snake ∧ ¬(mode = GameMode.obstacle ∧ c ∈ obstacles)) :
    ∃ p, spawnFoodFrom cands snake obstacles mode = some p ∧
      p ∉ snake ∧ (mode = GameMode.obstacle → p ∉ obstacles) := by
  induction cands with
  | nil => simp at hfree
  | cons c rest ih =>
    unfold spawnFoodFrom
    by_cases hbad : c ∈ snake ∨ (mode = GameMode.obstacle ∧ c ∈ obstacles)
    · rw [if_pos hbad]
      apply ih
      rcases hfree with ⟨d, hd, hgood⟩
      rcases List.mem_cons.mp hd with rfl | hd2
      · rcases hbad with hb | hb
        · exact absurd hb hgood.1
        · exact absurd hb hgood.2
      · exact ⟨d, hd2, hgood⟩
    · rw [if_neg hbad]
      push_neg at hbad
      exact ⟨c, rfl, hbad.1, fun hm => hbad.2 hm⟩

/-- C4 witness: a concrete draw where the first candidate is free. -/
theorem c4_spawned_food_avoids_occupied_witness :
    spawnFoodFrom [⟨0, 0⟩] [⟨20, 20⟩] [] GameMode.classic = some ⟨0, 0⟩ ∧
    (⟨0, 0⟩ : Pos) ∉ [(⟨20, 20⟩ : Pos)] := by
  obtain ⟨p, hp, hns, -⟩ :=
    c4_spawned_food_avoids_occupied [⟨0, 0⟩] [⟨20, 20⟩] [] GameMode.classic (by decide)
  have hval : spawnFoodFrom [⟨0, 0⟩] [⟨20, 20⟩] [] GameMode.classic = some ⟨0, 0⟩ := by
    decide
  have hpe : (⟨0, 0⟩ : Pos) = p := by
    rw [hval] at hp
    exact Option.some_injective _ hp
  rw [← hpe] at hns
  exact ⟨hval, hns⟩

theorem checkCollisions_classic (s : GameState) (h : Pos) (t : List Pos)
    (hsn : s.snake = h :: t) (hmode : s.selectedGameMode = GameMode.classic) :
    checkCollisions s = if h ∈ t then endGame s else s := by
  unfold checkCollisions
  rw [hsn]
  dsimp only
  by_cases hin : h ∈ t
  · simp [hin]
  · simp [hin, hmode]

/-- C2 counterexample: from `exC2` the next head `(100,120)` equals the
old tail — a segment at index ≥ 1 of the pre-move body — so the spec's
`hitsSelf` contract demands a game-over transition, yet the tick leaves
the session playing, because the tail cell is popped before the check
runs. -/
theorem c2_old_tail_cell_is_safe_counterexample :
    hitsSelfSpec (wrapPos exC2.canvasSize exC2.gridSize ⟨100 + exC2.dx, 100 + exC2.dy⟩)
      exC2.snake ∧
    (tick [] exC2).gameState = GState.playing := by
  decide

/-- C2 (amended): in classic mode a tick transitions to gameOver by
self-collision exactly when the new head lies in the tail of the
post-move body: every pre-move segment when the head lands on food, and
every pre-move segment except the dropped old tail cell otherwise. -/
theorem c2_self_collision_is_postmove_check (cands : List Pos) (s : GameState)
    (h0 : Pos) (rest : List Pos) (hsnake : s.snake = h0 :: rest)
    (hplaying : s.gameState = GState.playing)
    (hmode : s.selectedGameMode = GameMode.classic) (nh : Pos)
    (hnh : nh = wrapPos s.canvasSize s.gridSize ⟨h0.x + s.dx, h0.y + s.dy⟩) :
    ((tick cands s).gameState = GState.gameOver ↔
      nh ∈ (if nh = s.food then h0 :: rest else (h0 :: rest).dropLast)) := by
  have hmove := moveSnake_eq s h0 rest hsnake nh hnh
  have htick : tick cands s = checkFood cands (checkCollisions (moveSnake
      { s with changingDirection := false })) := rfl
  rw [htick, hmove]
  by_cases he : nh = s.food
  · rw [if_pos he, if_pos he]
    have hcc := checkCollisions_classic
      { s with changingDirection := false, snake := nh :: h0 :: rest } nh (h0 :: rest)
      rfl hmode
    rw [hcc]
    by_cases hin : nh ∈ h0 :: rest
    · rw [if_pos hin]
      obtain ⟨-, -, -, -, -, -, e7, -⟩ := checkFood_eat_fields cands
        (endGame { s with changingDirection := false, snake := nh :: h0 :: rest })
        nh (h0 :: rest) rfl he
      rw [e7]
      simp [endGame, hin]
    · rw [if_neg hin]
      obtain ⟨-, -, -, -, -, -, e7, -⟩ := checkFood_eat_fields cands
        { s with changingDirection := false, snake := nh :: h0 :: rest }
        nh (h0 :: rest) rfl he
      rw [e7]
      simp [hplaying, hin]
  · rw [if_neg he, if_neg he]
    have hdl : (nh :: h0 :: rest).dropLast = nh :: (h0 :: rest).dropLast := rfl
    have hcc := checkCollisions_classic
      { s with changingDirection := false, snake := (nh :: h0 :: rest).dropLast }
      nh ((h0 :: rest).dropLast) hdl hmode
    rw [hcc]
    by_cases hin : nh ∈ (h0 :: rest).dropLast
    · rw [if_pos hin, checkFood_noeat cands (endGame { s with changingDirection := false, snake := (nh :: h0 :: rest).dropLast }) nh ((h0 :: rest).dropLast) hdl he]
      simp [endGame, hin]
    · rw [if_neg hin, checkFood_noeat cands { s with changingDirection := false, snake := (nh :: h0 :: rest).dropLast } nh ((h0 :: rest).dropLast) hdl he]
      simp [hplaying, hin]

/-- C2 witness (for the amended statement): instantiated on `exC2`,
where the new head `(100,120)` revisits the old tail cell and the
session stays alive. -/
theorem c2_self_collision_is_postmove_check_witness :
    (tick [] exC2).gameState = GState.gameOver ↔
      (⟨100, 120⟩ : Pos) ∈
        (if (⟨100, 120⟩ : Pos) = exC2.food
         then (⟨100, 100⟩ : Pos) :: [⟨120, 100⟩, ⟨120, 120⟩, ⟨100, 120⟩]
         else ((⟨100, 100⟩ : Pos) :: [⟨120, 100⟩, ⟨120, 120⟩, ⟨100, 120⟩]).dropLast) :=
  c2_self_collision_is_postmove_check [] exC2 ⟨100, 100⟩
    [⟨120, 100⟩, ⟨120, 120⟩, ⟨100, 120⟩] rfl rfl rfl ⟨100, 120⟩ (by decide)

/-- C3: on the tick that brings the session's cumulative points to 50,
the script.js engine adds the per-food 5 seconds and the 20-second
bonus, while the modular engine's `addTimeBonus` — invoked with the
constant per-food points 10 — adds only 5 seconds and never raises the
bonus event, because `10 % 50 ≠ 0`. -/
theorem c3_time_trial_bonus_divergence :
    (tick [] exC3).pointsEarned = 50 ∧
    (tick [] exC3).timeRemaining = exC3.timeRemaining + 5 + 20 ∧
    addTimeBonus GameMode.timetrial 10 exC3.timeRemaining =
      (exC3.timeRemaining + 5, false) := by
  decide

theorem handleKeyPress_latched (s : GameState) (k : Key)
    (hch : s.changingDirection = true) : handleKeyPress s k = s := by
  unfold handleKeyPress
  simp [hch]

theorem processKeys_latched (s : GameState) (ks : List Key)
    (hch : s.changingDirection = true) : processKeys s ks = s := by
  induction ks with
  | nil => rfl
  | cons k ks ih =>
    show processKeys (handleKeyPress s k) ks = s
    rw [handleKeyPress_latched s k hch]
    exact ih

theorem handleKeyPress_first (s : GameState) (k : Key)
    (hch : s.changingDirection = false) (hplay : s.gameState = GState.playing) :
    (handleKeyPress s k).changingDirection = true ∧
    (((handleKeyPress s k).dx = s.dx ∧ (handleKeyPress s k).dy = s.dy) ∨
     (s.dx = 0 ∧ (handleKeyPress s k).dy = 0) ∨
     (s.dy = 0 ∧ (handleKeyPress s k).dx = 0)) := by
  cases k with
  | left =>
    unfold handleKeyPress
    by_cases hdx : s.dx = 0 <;> simp [hplay, hch, hdx]
  | up =>
    unfold handleKeyPress
    by_cases hdy : s.dy = 0 <;> simp [hplay, hch, hdy]
  | right =>
    unfold handleKeyPress
    by_cases hdx : s.dx = 0 <;> simp [hplay, hch, hdx]
  | down =>
    unfold handleKeyPress
    by_cases hdy : s.dy = 0 <;> simp [hplay, hch, hdy]
  | pause =>
    unfold handleKeyPress pauseGame
    simp [hplay, hch]
  | other =>
    unfold handleKeyPress
    simp [hplay, hch]

/-- C6: during one tick (latch freshly cleared), no sequence of key
events can leave the heading equal to the exact reverse of the heading
the tick started with, for any cardinal starting heading — the snake's
length never even enters the check. -/
theorem c6_no_reversal_within_tick (s : GameState) (ks : List Key)
    (hplay : s.gameState = GState.playing)
    (hch : s.changingDirection = false)
    (hcard : (s.dx ≠ 0 ∧ s.dy = 0) ∨ (s.dx = 0 ∧ s.dy ≠ 0)) :
    ¬((processKeys s ks).dx = -s.dx ∧ (processKeys s ks).dy = -s.dy) := by
  rcases ks with _ | ⟨k, ks⟩
  · show ¬(s.dx = -s.dx ∧ s.dy = -s.dy)
    rintro ⟨hx, hy⟩
    rcases hcard with ⟨h1, h2⟩ | ⟨h1, h2⟩ <;> omega
  · obtain ⟨hlatch, hout⟩ := handleKeyPress_first s k hch hplay
    have hrest : processKeys s (k :: ks) = handleKeyPress s k := by
      show processKeys (handleKeyPress s k) ks = handleKeyPress s k
      exact processKeys_latched _ ks hlatch
    rw [hrest]
    rintro ⟨hx, hy⟩
    rcases hout with ⟨e1, e2⟩ | ⟨e1, e2⟩ | ⟨e1, e2⟩ <;>
      rcases hcard with ⟨h1, h2⟩ | ⟨h1, h2⟩ <;> omega

/-- C6 witness: pressing left then up while heading right leaves the
heading anywhere but the reverse `(-20, 0)`. -/
theorem c6_no_reversal_within_tick_witness :
    ¬((processKeys exC1 [Key.left, Key.up]).dx = -exC1.dx ∧
      (processKeys exC1 [Key.left, Key.up]).dy = -exC1.dy) :=
  c6_no_reversal_within_tick exC1 [Key.left, Key.up] rfl rfl (by decide)

/-- C10: while playing with the latch clear, an intent whose axis
matches the current heading (a same-direction press included) leaves
the heading unchanged yet sets the once-per-tick latch, so every
further intent of the same tick — valid or not — is ignored outright. -/
theorem c10_axis_matching_intent_consumes_latch (s : GameState) (k : Key)
    (hplay : s.gameState = GState.playing) (hch : s.changingDirection = false)
    (hmatch : ((k = Key.left ∨ k = Key.right) ∧ s.dx ≠ 0) ∨
              ((k = Key.up ∨ k = Key.down) ∧ s.dy ≠ 0)) :
    (handleKeyPress s k).dx = s.dx ∧ (handleKeyPress s k).dy = s.dy ∧
    (handleKeyPress s k).changingDirection = true ∧
    ∀ k2, handleKeyPress (handleKeyPress s k) k2 = handleKeyPress s k := by
  have hmain : (handleKeyPress s k).dx = s.dx ∧ (handleKeyPress s k).dy = s.dy ∧
      (handleKeyPress s k).changingDirection = true := by
    rcases hmatch with ⟨hk, hd⟩ | ⟨hk, hd⟩ <;> rcases hk with rfl | rfl <;>
      · unfold handleKeyPress
        simp [hplay, hch, hd]
  exact ⟨hmain.1, hmain.2.1, hmain.2.2,
    fun k2 => handleKeyPress_latched _ k2 hmain.2.2⟩

/-- C10 witness: pressing right while already heading right changes
nothing, but a subsequent up press in the same tick is swallowed. -/
theorem c10_axis_matching_intent_consumes_latch_witness :
    (handleKeyPress exC1 Key.right).dx = exC1.dx ∧
    (handleKeyPress exC1 Key.right).changingDirection = true ∧
    handleKeyPress (handleKeyPress exC1 Key.right) Key.up =
      handleKeyPress exC1 Key.right := by
  have h := c10_axis_matching_intent_consumes_latch exC1 Key.right rfl rfl (by decide)
  exact ⟨h.1, h.2.2.1, h.2.2.2 Key.up⟩

theorem placeOne_sound (cand : Nat → Pos) (snake obs : List Pos) (g : Int) :
    ∀ a idx c idx2, placeOne cand snake obs g a idx = (some c, idx2) →
      c ∉ snake ∧ c ∉ obs ∧ ¬ tooCloseToStart g c := by
  intro a
  induction a with
  | zero =>
    intro idx c idx2 h
    exact absurd h (by simp [placeOne])
  | succ n ih =>
    intro idx c idx2 h
    unfold placeOne at h
    by_cases hcond : cand idx ∉ snake ∧ cand idx ∉ obs ∧ ¬ tooCloseToStart g (cand idx)
    · rw [if_pos hcond] at h
      simp only [Prod.mk.injEq, Option.some.injEq] at h
      rw [← h.1]
      exact hcond
    · rw [if_neg hcond] at h
      exact ih (idx + 1) c idx2 h

theorem genObstaclesAux_sound (cand : Nat → Pos) (snake : List Pos) (g : Int) :
    ∀ n obs idx, obs.Nodup → (∀ p ∈ obs, p ∉ snake ∧ ¬ tooCloseToStart g p) →
      (genObstaclesAux cand snake g n obs idx).1.Nodup ∧
      (∀ p ∈ (genObstaclesAux cand snake g n obs idx).1,
        p ∉ snake ∧ ¬ tooCloseToStart g p) ∧
      (genObstaclesAux cand snake g n obs idx).1.length ≤ obs.length + n := by
  intro n
  induction n with
  | zero =>
    intro obs idx h1 h2
    exact ⟨h1, h2, by simp [genObstaclesAux]⟩
  | succ m ih =>
    intro obs idx h1 h2
    unfold genObstaclesAux
    rcases hp : placeOne cand snake obs g 50 idx with ⟨copt, idx2⟩
    rcases copt with _ | c
    · dsimp only
      obtain ⟨g1, g2, g3⟩ := ih obs idx2 h1 h2
      exact ⟨g1, g2, by omega⟩
    · dsimp only
      obtain ⟨hc1, hc2, hc3⟩ := placeOne_sound cand snake obs g 50 idx c idx2 hp
      have h1x : (obs ++ [c]).Nodup := by
        simp [List.nodup_append, h1, hc2]
      have h2x : ∀ p ∈ obs ++ [c], p ∉ snake ∧ ¬ tooCloseToStart g p := by
        intro p hpmem
        rcases List.mem_append.mp hpmem with hmo | hmc
        · exact h2 p hmo
        · rcases List.mem_singleton.mp hmc with rfl
          exact ⟨hc1, hc3⟩
      obtain ⟨g1, g2, g3⟩ := ih (obs ++ [c]) idx2 h1x h2x
      refine ⟨g1, g2, ?_⟩
      have hlen : (obs ++ [c]).length = obs.length + 1 := by simp
      omega

/-- C7: the sampled obstacle target lies in [5, 12], and for every
random stream the placed obstacle set has pairwise-distinct cells,
touches neither the snake nor the spawn-area exclusion zone, and never
exceeds the sampled target (skipped placements may leave it smaller). -/
theorem c7_obstacle_placement_sound (countRand : Nat) (cand : Nat → Pos)
    (snake : List Pos) (g : Int) :
    5 ≤ numObstaclesOf countRand ∧ numObstaclesOf countRand ≤ 12 ∧
    (generateObstacles countRand cand snake g).Nodup ∧
    (∀ p ∈ generateObstacles countRand cand snake g,
      p ∉ snake ∧ ¬ tooCloseToStart g p) ∧
    (generateObstacles countRand cand snake g).length ≤ numObstaclesOf countRand := by
  obtain ⟨g1, g2, g3⟩ := genObstaclesAux_sound cand snake g (numObstaclesOf countRand)
    [] 0 (by simp) (by simp)
  refine ⟨by unfold numObstaclesOf; omega, by unfold numObstaclesOf; omega, g1, g2, ?_⟩
  simpa using g3

theorem timerTick_reaches_gameover : ∀ (n : Nat) (s : GameState),
    s.timerActive = true → s.timeRemaining = (n : Int) + 1 →
    (timerTick^[n + 1] s).gameState = GState.gameOver := by
  intro n
  induction n with
  | zero =>
    intro s hact ht
    show (timerTick^[1] s).gameState = GState.gameOver
    rw [Function.iterate_one]
    unfold timerTick
    rw [if_pos hact, if_pos (by rw [ht]; norm_num : s.timeRemaining - 1 ≤ 0)]
    rfl
  | succ m ih =>
    intro s hact ht
    rw [Function.iterate_succ_apply]
    have hno : ¬ s.timeRemaining - 1 ≤ 0 := by
      rw [ht]
      push_cast
      omega
    have hstep : timerTick s = { s with timeRemaining := s.timeRemaining - 1 } := by
      unfold timerTick
      rw [if_pos hact, if_neg hno]
    rw [hstep]
    apply ih
    · exact hact
    · show s.timeRemaining - 1 = (m : Int) + 1
      rw [ht]
      push_cast
      ring

/-- C8: pausing flips only `isPaused` — the movement loop stops
re-scheduling but the live countdown interval survives, keeps
decrementing `remainingSeconds` once per firing, and drives the paused
session into gameOver when it hits zero. -/
theorem c8_pause_spares_countdown (s : GameState) (n : Nat)
    (hplay : s.gameState = GState.playing) (hact : s.timerActive = true)
    (ht : s.timeRemaining = (n : Int) + 1) :
    gameLoopSchedules (pauseGame s) = false ∧
    (pauseGame s).timerActive = true ∧
    (timerTick (pauseGame s)).timeRemaining = s.timeRemaining - 1 ∧
    (timerTick^[n + 1] (pauseGame s)).gameState = GState.gameOver := by
  have hpause : pauseGame s = { s with isPaused := true } := by
    unfold pauseGame
    rw [if_pos hplay]
  refine ⟨?_, ?_, ?_, ?_⟩
  · rw [hpause]
    simp [gameLoopSchedules]
  · rw [hpause]
    exact hact
  · rw [hpause]
    unfold timerTick
    dsimp only
    simp only [hact, eq_self_iff_true, if_true]
    split_ifs <;> rfl
  · rw [hpause]
    exact timerTick_reaches_gameover n { s with isPaused := true } hact ht

/-- C8 witness: pausing `exC8` (time-trial, three seconds left) leaves
the countdown live; three firings later the session is over. -/
theorem c8_pause_spares_countdown_witness :
    gameLoopSchedules (pauseGame exC8) = false ∧
    (pauseGame exC8).timerActive = true ∧
    (timerTick (pauseGame exC8)).timeRemaining = exC8.timeRemaining - 1 ∧
    (timerTick^[3] (pauseGame exC8)).gameState = GState.gameOver :=
  c8_pause_spares_countdown exC8 2 rfl rfl (by decide)

end VaporSnake
